import Mathlib

/-!
Verification of the `zzstoatzz/maps` street-map generator.

The development shallowly embeds the pure decision logic of the program:

* `src/src/maps/storage.py` — `R2Bucket.save_figure` key construction;
* `src/main.py` — the MCP tool operations `plot_street_map_from_address`
  and `plot_street_map_from_coordinates` (option-bag defaulting, address
  sanitization, storage-key namespace selection, public URL assembly),
  the `R2BucketSettings` configuration object, the launch-mode dispatch
  in the `__main__` block, the CLI edge-color and output-path defaulting,
  and the save-or-show branch of `generate_street_map_from_address`;
* `src/src/maps/generators.py` — `from_address`;
* `src/src/maps/_compat.py` — `old_main` (same defaulting logic).

Side-effecting calls (figure rendering, uploads, directory creation,
interactive display) are modelled as explicit data: the functions below
compute the arguments those calls receive, or a list of actions taken.
Wall-clock time is passed in explicitly as a `LocalTime` value.
-/

namespace Maps

/-- A Python scalar value as it appears in the option dictionaries
(`PlotOptions` is a TypedDict whose values are ints, floats, strings,
or booleans; exact fractions stand in for the float literals used in
the source, all of which are exactly representable). -/
inductive PVal where
  | int : Int → PVal
  | num : Rat → PVal
  | str : String → PVal
  | bool : Bool → PVal
deriving DecidableEq, Repr

/-- A Python dict, as an association list in insertion order. A dict is
falsy exactly when the list is empty. -/
abbrev PyDict := List (String × PVal)

/-- Python `dict.get(k, dflt)`: first binding of `k`, else the default. -/
def dict_get (d : PyDict) (k : String) (dflt : PVal) : PVal :=
  match d.find? (fun kv => kv.1 = k) with
  | some kv => kv.2
  | none => dflt

/-- Local wall-clock time at second granularity, the input to
`datetime.now().strftime("%Y%m%d_%H%M%S")`. -/
structure LocalTime where
  year : Nat
  month : Nat
  day : Nat
  hour : Nat
  minute : Nat
  second : Nat
deriving DecidableEq, Repr

/-- Zero-pad a number to two digits, as `%m`, `%d`, `%H`, `%M`, `%S` do. -/
def pad2 (n : Nat) : String := if n < 10 then "0" ++ Nat.repr n else Nat.repr n

/-- Zero-pad a number to four digits, as `%Y` does. -/
def pad4 (n : Nat) : String :=
  if n < 10 then "000" ++ Nat.repr n
  else if n < 100 then "00" ++ Nat.repr n
  else if n < 1000 then "0" ++ Nat.repr n
  else Nat.repr n

/-- Format a `LocalTime` as `datetime.strftime("%Y%m%d_%H%M%S")` does. -/
def strftime_key (t : LocalTime) : String :=
  pad4 t.year ++ pad2 t.month ++ pad2 t.day ++ "_" ++
    pad2 t.hour ++ pad2 t.minute ++ pad2 t.second

/-- Storage key computed by `R2Bucket.save_figure`
(`src/src/maps/storage.py` line 74):
`key = f"{namespace}/{network_type}_{timestamp}.png"`, with `timestamp`
the current local time formatted `%Y%m%d_%H%M%S` (line 73). The time is
passed in explicitly. -/
def save_figure_key (ns network_type : String) (now : LocalTime) : String :=
  ns ++ "/" ++ network_type ++ "_" ++ strftime_key now ++ ".png"

/-- Python `str.replace` specialised to a single-character pattern: every
occurrence of `c` is replaced by `repl`. -/
def py_replace_char (c : Char) (repl : List Char) : List Char → List Char
  | [] => []
  | d :: ds => (if d = c then repl else [d]) ++ py_replace_char c repl ds

/-- The namespace sanitization applied to the address in
`plot_street_map_from_address` (`src/main.py` line 77):
`address.replace(",", "").replace(" ", "_")`. -/
def sanitize_address (address : String) : String :=
  String.mk (py_replace_char ' ' ['_'] (py_replace_char ',' [] address.data))

/-- The `GraphFromAddressOptions` / `GraphFromPointOptions` TypedDict from
`src/src/maps/types.py` (`_BaseFromOptions`): every field `NotRequired`.
`network_type` is kept as a string because the tool operations read it with
`.get("network_type", "street")`, a default outside the `NetworkType`
literal set. -/
structure BaseFromOptions where
  network_type : Option String
  simplify : Option Bool
  retain_all : Option Bool
  truncate_by_edge : Option Bool
  custom_filter : Option String
deriving DecidableEq, Repr

/-- The empty options dict `{}`. -/
def BaseFromOptions.empty : BaseFromOptions := ⟨none, none, none, none, none⟩

/-- Embeds `address_options = address_options or {}` (`src/main.py` line 70, and
line 90 for point options): `None` and the empty dict both resolve to the
empty dict; the structure encoding makes those the same value. -/
def resolve_from_options (o : Option BaseFromOptions) : BaseFromOptions :=
  o.getD BaseFromOptions.empty

/-- The default plot-options dict of the tool operations
(`src/main.py` lines 71 and 91): `{"node_size": 1, "edge_linewidth": 0.5}`. -/
def default_plot_options : PyDict :=
  [("node_size", PVal.int 1), ("edge_linewidth", PVal.num (mkRat 1 2))]

/-- Embeds `plot_options = plot_options or {"node_size": 1, "edge_linewidth": 0.5}`
(`src/main.py` lines 71 and 91). Python `or` substitutes the default when
`plot_options` is falsy: `None` or the empty dict `{}`. A truthy
(non-empty) dict passes through unchanged. -/
def resolve_plot_options (plot_options : Option PyDict) : PyDict :=
  match plot_options with
  | none => default_plot_options
  | some d => if d = [] then default_plot_options else d

/-- Storage key uploaded by the tool `plot_street_map_from_address`
(`src/main.py` lines 74-79): namespace is the sanitized address, network
type is `address_options.get("network_type", "street")`. -/
def plot_street_map_from_address_key (address : String)
    (address_options : Option BaseFromOptions) (now : LocalTime) : String :=
  let ao := resolve_from_options address_options
  save_figure_key (sanitize_address address) (ao.network_type.getD "street") now

/-- Storage key uploaded by the tool `plot_street_map_from_coordinates`
(`src/main.py` lines 95-100): namespace is the literal
`"some_coordinate_point"`; the point itself is unused. The point is a
(latitude, longitude) pair of floats, represented by rationals. -/
def plot_street_map_from_coordinates_key (point : Rat × Rat)
    (point_options : Option BaseFromOptions) (now : LocalTime) : String :=
  let po := resolve_from_options point_options
  let _ := point
  save_figure_key "some_coordinate_point" (po.network_type.getD "street") now

/-- Embeds `_make_url` (`src/main.py` lines 39-40):
`f"{r2_bucket_settings.R2_PUBLIC_BUCKET_URL}/{key}"`, with the base URL
passed in explicitly. -/
def _make_url (R2_PUBLIC_BUCKET_URL : String) (key : String) : String :=
  R2_PUBLIC_BUCKET_URL ++ "/" ++ key

/-- A process environment: variable name / value pairs (first binding wins,
as `os.environ` holds at most one binding per name). -/
abbrev Env := List (String × String)

/-- Look a variable up in the environment. -/
def env_lookup (env : Env) (k : String) : Option String :=
  (env.find? (fun kv => kv.1 = k)).map (fun kv => kv.2)

/-- The five required fields of `R2BucketSettings`
(`src/main.py` lines 46-50), in declaration order. -/
def required_r2_fields : List String :=
  ["R2_BUCKET", "R2_ENDPOINT_URL", "R2_PUBLIC_BUCKET_URL",
   "AWS_ACCESS_KEY_ID", "AWS_SECRET_ACCESS_KEY"]

/-- The `R2BucketSettings` class (`src/main.py` lines 43-53): five required string
settings, `model_config` with `extra="ignore"`. -/
structure R2BucketSettings where
  R2_BUCKET : String
  R2_ENDPOINT_URL : String
  R2_PUBLIC_BUCKET_URL : String
  AWS_ACCESS_KEY_ID : String
  AWS_SECRET_ACCESS_KEY : String
deriving DecidableEq, Repr

/-- Modelled from the spec: construction semantics of the settings /
validation library (pydantic-settings, not part of this repository) for
the `R2BucketSettings` declaration in `src/main.py` lines 43-53 — every
declared field is required with no default, so construction fails with a
validation error naming each missing field ("required-field-checked
configuration objects, with unknown-field tolerance"; "unrecognized extra
variables are ignored, not errors"; "surfacing as a startup-time
validation error naming the missing field(s)"). On success the five
recognized variables are read from the environment; variables outside
`required_r2_fields` are ignored by `extra="ignore"`. -/
def construct_settings (env : Env) : Except (List String) R2BucketSettings :=
  match env_lookup env "R2_BUCKET", env_lookup env "R2_ENDPOINT_URL",
    env_lookup env "R2_PUBLIC_BUCKET_URL", env_lookup env "AWS_ACCESS_KEY_ID",
    env_lookup env "AWS_SECRET_ACCESS_KEY" with
  | some b, some e, some p, some a, some s => Except.ok ⟨b, e, p, a, s⟩
  | _, _, _, _, _ =>
      Except.error (required_r2_fields.filter (fun f => env_lookup env f = none))

/-- The two ways `src/main.py` can run after parsing arguments
(`__main__` block, lines 215-248). -/
inductive LaunchMode where
  | server
  | cli
deriving DecidableEq, Repr

/-- The value of `args.server` after `parse_args()`: the `--server` flag is
`action="store_true"` (`src/main.py` lines 160-164), so it is true exactly
when the flag token appears among the arguments after the program name. -/
def parse_server_flag (argv : List String) : Bool :=
  (argv.drop 1).contains "--server"

/-- The launch-mode decision (`src/main.py` line 219):
`if len(sys.argv) == 1 or args.server`. `argv` includes the program name
in position 0, as `sys.argv` does. -/
def launch_mode (argv : List String) : LaunchMode :=
  if argv.length = 1 ∨ parse_server_flag argv then LaunchMode.server
  else LaunchMode.cli

/-- Process startup of `src/main.py`: the module-level
`r2_bucket_settings = R2BucketSettings()` (line 53) runs at import, before
the `__main__` dispatch (line 215), so a validation error prevents either
branch from running; on success the branch is chosen from `argv` alone —
the environment is not consulted by the dispatch. -/
def main_py_startup (env : Env) (argv : List String) :
    Except (List String) LaunchMode :=
  (construct_settings env).map (fun _ => launch_mode argv)

/-- The CLI network type, `choices=["drive", "bike", "walk", "all"]`
enforced by argparse (`src/main.py` lines 165-171). -/
inductive NetworkType where
  | drive
  | bike
  | walk
  | all
deriving DecidableEq, Repr

/-- The string the argument parser stored for each choice. -/
def NetworkType.py_str : NetworkType → String
  | .drive => "drive"
  | .bike => "bike"
  | .walk => "walk"
  | .all => "all"

/-- The per-network-type edge-color dict (`src/main.py` lines 224-229 and
`src/src/maps/_compat.py` lines 126-131). -/
def edge_color_table : NetworkType → String
  | .drive => "#ffffff"
  | .bike => "#3498db"
  | .walk => "#2ecc71"
  | .all => "#ffffff"

/-- Edge-color resolution in the CLI path (`src/main.py` lines 223-229):
`if not args.edge_color: args.edge_color = {...}[args.network_type]`.
`args.edge_color` is `None` when the flag is absent and the supplied
string otherwise; `not x` is true for `None` and for the empty string, so
both fall back to the table. -/
def resolve_edge_color (edge_color : Option String) (nt : NetworkType) : String :=
  match edge_color with
  | none => edge_color_table nt
  | some c => if c = "" then edge_color_table nt else c

/-- Output-path resolution in the CLI path (`src/main.py` lines 231-235):
`if not args.output:` create `img/` and derive
`img / f"{network_type}_street_map_{timestamp}.png"`. Returns the path the
run will save to, paired with whether the `img` directory is created
(`output_dir.mkdir(parents=True, exist_ok=True)`). -/
def resolve_output (output : Option String) (nt : NetworkType)
    (now : LocalTime) : String × Bool :=
  let default_path :=
    "img/" ++ nt.py_str ++ "_street_map_" ++ strftime_key now ++ ".png"
  match output with
  | none => (default_path, true)
  | some o => if o = "" then (default_path, true) else (o, false)

/-- What `ox.graph_from_address` hands back, as far as the assertion in
`from_address` can see: either a `networkx.MultiDiGraph` or some other
object. `g` is the type of graphs. -/
inductive AcqResult (g : Type) where
  | multiDiGraph : g → AcqResult g
  | other : AcqResult g
deriving DecidableEq, Repr

/-- Embeds `from_address` (`src/src/maps/generators.py` lines 18-39): acquire,
`assert isinstance(G, MultiDiGraph)`, then `return ox.project_graph(G)`.
The external acquisition result and the external `ox.project_graph` are
passed in as parameters; a failed assertion raises `AssertionError`. -/
def from_address {g : Type} (project_graph : g → g)
    (acquired : AcqResult g) : Except String g :=
  match acquired with
  | AcqResult.multiDiGraph G => Except.ok (project_graph G)
  | AcqResult.other => Except.error "AssertionError"

/-- The observable figure actions taken after rendering in
`generate_street_map_from_address`. -/
inductive FigAction where
  | mkdir_parent : String → FigAction
  | savefig : String → Int → Bool → FigAction
  | close : FigAction
  | show : FigAction
deriving DecidableEq, Repr

/-- The save-or-show branch of `generate_street_map_from_address`
(`src/main.py` lines 139-146, identically `src/src/maps/_compat.py` lines
48-55): `if save_path:` make the parent directory, `fig.savefig(save_path,
dpi=dpi, bbox_inches="tight")`, `plt.close()`; `else: plt.show()`.
`save_path` is `None` or a string; the string `""` is falsy and takes the
`else` branch. The `Bool` in `savefig` records tight bounding-box
cropping. -/
def finish_figure (save_path : Option String) (dpi : Int) : List FigAction :=
  match save_path with
  | none => [FigAction.show]
  | some p =>
      if p = "" then [FigAction.show]
      else [FigAction.mkdir_parent p, FigAction.savefig p dpi true,
            FigAction.close]

/-- Whether an action list writes the figure to a file. -/
def writes_file (acts : List FigAction) : Bool :=
  acts.any (fun a =>
    match a with
    | FigAction.savefig _ _ _ => true
    | _ => false)

/-! ## Helper lemmas -/

/-- Every decimal digit character is a digit. -/
theorem digitChar_isDigit : ∀ m < 10, (Nat.digitChar m).isDigit = true := by decide

/-- The characters `Nat.toDigitsCore` accumulates in base 10 are digits. -/
theorem toDigitsCore_all_digits (f : Nat) :
    ∀ (n : Nat) (ds : List Char), ds.all Char.isDigit = true →
      (Nat.toDigitsCore 10 f n ds).all Char.isDigit = true := by
  induction f with
  | zero => intro n ds hds; simpa [Nat.toDigitsCore] using hds
  | succ f ih =>
    intro n ds hds
    have hd : (Nat.digitChar (n % 10)).isDigit = true :=
      digitChar_isDigit _ (Nat.mod_lt _ (by decide))
    simp only [Nat.toDigitsCore]
    by_cases h : n / 10 = 0
    · simp [h, hd, hds]
    · simp only [h, if_false]
      exact ih _ _ (by simp [hd, hds])

/-- With enough fuel, `Nat.toDigitsCore` in base 10 emits exactly
`Nat.log 10 n + 1` digit characters. -/
theorem toDigitsCore_length_eq (f : Nat) :
    ∀ (n : Nat) (ds : List Char), n < f →
      (Nat.toDigitsCore 10 f n ds).length = Nat.log 10 n + 1 + ds.length := by
  induction f with
  | zero => intro n ds h; omega
  | succ f ih =>
    intro n ds hn
    simp only [Nat.toDigitsCore]
    by_cases h : n / 10 = 0
    · have hn10 : n < 10 := by omega
      have : Nat.log 10 n = 0 := Nat.log_eq_zero_iff.mpr (Or.inl hn10)
      simp [h, this]
      omega
    · have h10 : 10 ≤ n := by
        by_contra hlt
        exact h (Nat.div_eq_of_lt (by omega))
      have hrec : n / 10 < f := by
        have : n / 10 < n := Nat.div_lt_self (by omega) (by decide)
        omega
      have := ih (n / 10) (Nat.digitChar (n % 10) :: ds) hrec
      simp only [h, if_false, this, List.length_cons]
      have hlog : Nat.log 10 n = Nat.log 10 (n / 10) + 1 := by
        rw [Nat.log_div_base]
        have : 0 < Nat.log 10 n := Nat.log_pos (by decide) h10
        omega
      omega

/-- The decimal representation of `n` has `Nat.log 10 n + 1` characters. -/
theorem repr_length_eq (n : Nat) : (Nat.repr n).length = Nat.log 10 n + 1 := by
  have := toDigitsCore_length_eq (n + 1) n [] (Nat.lt_succ_self n)
  simpa [Nat.repr, Nat.toDigits, String.length, List.asString] using this

/-- The decimal representation of `n` consists of digit characters. -/
theorem repr_all_digits (n : Nat) : (Nat.repr n).data.all Char.isDigit = true := by
  have := toDigitsCore_all_digits (n + 1) n [] (by simp)
  simpa [Nat.repr, Nat.toDigits, List.asString] using this

/-- For inputs below 100, `pad2` yields exactly two digit characters. -/
theorem pad2_shape (n : Nat) (h : n < 100) :
    (pad2 n).length = 2 ∧ (pad2 n).data.all Char.isDigit = true := by
  unfold pad2
  have hdig := repr_all_digits n
  by_cases h10 : n < 10
  · have hlog : Nat.log 10 n = 0 := Nat.log_eq_zero_iff.mpr (Or.inl h10)
    refine ⟨?_, ?_⟩
    · simp [h10, String.length_append, repr_length_eq, hlog]
      decide
    · simp [h10, String.data_append, List.all_append, hdig]
  · have hlog : Nat.log 10 n = 1 :=
      Nat.log_eq_of_pow_le_of_lt_pow (by norm_num <;> omega) (by norm_num <;> omega)
    refine ⟨?_, ?_⟩
    · simp [h10, repr_length_eq, hlog]
    · simp [h10, hdig]

/-- For inputs below 10000, `pad4` yields exactly four digit characters. -/
theorem pad4_shape (n : Nat) (h : n < 10000) :
    (pad4 n).length = 4 ∧ (pad4 n).data.all Char.isDigit = true := by
  unfold pad4
  have hdig := repr_all_digits n
  by_cases h10 : n < 10
  · have hlog : Nat.log 10 n = 0 := Nat.log_eq_zero_iff.mpr (Or.inl h10)
    refine ⟨?_, ?_⟩
    · simp [h10, String.length_append, repr_length_eq, hlog]
      decide
    · simp [h10, String.data_append, List.all_append, hdig]
  · by_cases h100 : n < 100
    · have hlog : Nat.log 10 n = 1 :=
        Nat.log_eq_of_pow_le_of_lt_pow (by norm_num <;> omega) (by norm_num <;> omega)
      refine ⟨?_, ?_⟩
      · simp [h10, h100, String.length_append, repr_length_eq, hlog]
        decide
      · simp [h10, h100, String.data_append, List.all_append, hdig]
    · by_cases h1000 : n < 1000
      · have hlog : Nat.log 10 n = 2 :=
          Nat.log_eq_of_pow_le_of_lt_pow (by norm_num <;> omega) (by norm_num <;> omega)
        refine ⟨?_, ?_⟩
        · simp [h10, h100, h1000, String.length_append, repr_length_eq, hlog]
          decide
        · simp [h10, h100, h1000, String.data_append, List.all_append, hdig]
      · have hlog : Nat.log 10 n = 3 :=
          Nat.log_eq_of_pow_le_of_lt_pow (by norm_num <;> omega) (by norm_num <;> omega)
        refine ⟨?_, ?_⟩
        · simp [h10, h100, h1000, repr_length_eq, hlog]
        · simp [h10, h100, h1000, hdig]

/-- Prepending a binding for a different name does not change a lookup. -/
theorem env_lookup_cons_ne (env : Env) (k v f : String) (h : f ≠ k) :
    env_lookup ((k, v) :: env) f = env_lookup env f := by
  unfold env_lookup
  rw [List.find?_cons_of_neg _ (by simp [Ne.symm h])]

/-! ## Claims -/

/-- Claim C1: every save through the object-storage client uploads the key
`{namespace}/{network_type}_{timestamp}.png` with the timestamp formatted
`YYYYMMDD_HHMMSS`; an address-based tool call uses the address with commas
removed and spaces replaced by underscores as the namespace (the given San
Francisco address with network type `walk` yields
`2530_16th_St_San_Francisco_CA_94103/walk_{timestamp}.png`), and a
point-based tool call always uses the literal `some_coordinate_point`
regardless of the coordinates. -/
theorem C1_storage_key_construction :
    (∀ (ns network_type : String) (now : LocalTime),
        save_figure_key ns network_type now
          = ns ++ "/" ++ network_type ++ "_" ++ strftime_key now ++ ".png")
  ∧ (∀ (address : String) (ao : Option BaseFromOptions) (now : LocalTime),
        plot_street_map_from_address_key address ao now
          = sanitize_address address ++ "/"
              ++ ((resolve_from_options ao).network_type.getD "street") ++ "_"
              ++ strftime_key now ++ ".png")
  ∧ plot_street_map_from_address_key "2530 16th St, San Francisco, CA 94103"
        (some ⟨some "walk", none, none, none, none⟩) ⟨2026, 10, 12, 15, 4, 5⟩
      = "2530_16th_St_San_Francisco_CA_94103/walk_20261012_150405.png"
  ∧ (∀ (p q : Rat × Rat) (po : Option BaseFromOptions) (now : LocalTime),
        plot_street_map_from_coordinates_key p po now
          = plot_street_map_from_coordinates_key q po now)
  ∧ (∀ (p : Rat × Rat) (po : Option BaseFromOptions) (now : LocalTime),
        plot_street_map_from_coordinates_key p po now
          = "some_coordinate_point" ++ "/"
              ++ ((resolve_from_options po).network_type.getD "street") ++ "_"
              ++ strftime_key now ++ ".png") := by
  refine ⟨fun ns nt now => rfl, fun a ao now => rfl, ?_,
    fun p q po now => rfl, fun p po now => rfl⟩
  decide

/-- Claim C2: the string returned to the calling agent for an uploaded key
is exactly the configured public base URL, one `/` separator, and the key
— for base `https://cdn.example.com` and key `foo/bar.png` it is exactly
`https://cdn.example.com/foo/bar.png`. -/
theorem C2_public_url_assembly :
    (∀ base key : String, _make_url base key = base ++ "/" ++ key)
  ∧ _make_url "https://cdn.example.com" "foo/bar.png"
      = "https://cdn.example.com/foo/bar.png" :=
  ⟨fun base key => rfl, by decide⟩

/-- Claim C3: with no `plot_options` supplied, the option bag passed to the
rendering call is exactly the documented default dict
`node_size = 1, edge_linewidth = 0.5`. -/
theorem C3_default_plot_options_bag :
    resolve_plot_options none
      = [("node_size", PVal.int 1), ("edge_linewidth", PVal.num (mkRat 1 2))] := by
  decide

/-- Claim C10: the plotting defaults are substituted only when
`plot_options` is omitted/`None` or the empty dict; every non-empty dict is
passed to the rendering call exactly as supplied, with no per-key merge of
the defaults. -/
theorem C10_plot_options_passthrough :
    (∀ d : PyDict, d ≠ [] → resolve_plot_options (some d) = d)
  ∧ resolve_plot_options none = default_plot_options
  ∧ resolve_plot_options (some []) = default_plot_options := by
  refine ⟨fun d hd => ?_, rfl, rfl⟩
  simp [resolve_plot_options, hd]

/-- Witness for claim C10: a dict holding only `dpi` passes through
unchanged, so the rendering call receives no `node_size` entry. -/
theorem C10_plot_options_passthrough_witness :
    resolve_plot_options (some [("dpi", PVal.int 300)]) = [("dpi", PVal.int 300)] :=
  C10_plot_options_passthrough.1 [("dpi", PVal.int 300)] (by decide)

/-- Claim C4: the launch-mode decision depends only on the command line —
a lone program name or a `--server` flag selects the persistent server
path, a positional argument without the flag selects the one-shot CLI
path, and environments under which startup succeeds agree on the chosen
mode. -/
theorem C4_launch_mode_selection :
    (∀ prog : String, launch_mode [prog] = LaunchMode.server)
  ∧ (∀ argv : List String, parse_server_flag argv = true →
        launch_mode argv = LaunchMode.server)
  ∧ (∀ argv : List String, 2 ≤ argv.length → parse_server_flag argv = false →
        launch_mode argv = LaunchMode.cli)
  ∧ (∀ (argv : List String) (env env' : Env) (s s' : R2BucketSettings),
        construct_settings env = Except.ok s →
        construct_settings env' = Except.ok s' →
        main_py_startup env argv = main_py_startup env' argv) := by
  refine ⟨fun prog => by simp [launch_mode], fun argv hs => by simp [launch_mode, hs],
    fun argv h2 hs => ?_, fun argv env env' s s' h h' => ?_⟩
  · have hcond : ¬(argv.length = 1 ∨ parse_server_flag argv = true) := by
      rw [hs]
      simp
      omega
    simp [launch_mode, hcond]
  · simp [main_py_startup, h, h', Except.map]

/-- Witness for claim C4: concrete invocations of each launch shape, and
two different complete environments yielding the same dispatch. -/
theorem C4_launch_mode_selection_witness :
    launch_mode ["main.py"] = LaunchMode.server
  ∧ launch_mode ["main.py", "--server"] = LaunchMode.server
  ∧ launch_mode ["main.py", "2530 16th St, San Francisco, CA 94103"] = LaunchMode.cli
  ∧ main_py_startup
        [("R2_BUCKET", "maps"), ("R2_ENDPOINT_URL", "https://e1.example.com"),
         ("R2_PUBLIC_BUCKET_URL", "https://cdn1.example.com"),
         ("AWS_ACCESS_KEY_ID", "id1"), ("AWS_SECRET_ACCESS_KEY", "s1")]
        ["main.py", "--server"]
      = main_py_startup
          [("R2_BUCKET", "other"), ("R2_ENDPOINT_URL", "https://e2.example.com"),
           ("R2_PUBLIC_BUCKET_URL", "https://cdn2.example.com"),
           ("AWS_ACCESS_KEY_ID", "id2"), ("AWS_SECRET_ACCESS_KEY", "s2")]
          ["main.py", "--server"] :=
  ⟨C4_launch_mode_selection.1 "main.py",
   C4_launch_mode_selection.2.1 ["main.py", "--server"] (by decide),
   C4_launch_mode_selection.2.2.1 ["main.py", "2530 16th St, San Francisco, CA 94103"]
     (by decide) (by decide),
   C4_launch_mode_selection.2.2.2 ["main.py", "--server"] _ _
     ⟨"maps", "https://e1.example.com", "https://cdn1.example.com", "id1", "s1"⟩
     ⟨"other", "https://e2.example.com", "https://cdn2.example.com", "id2", "s2"⟩
     rfl rfl⟩

/-- Claim C5: constructing the settings with a required environment
variable absent yields a validation error naming the missing field, and
this happens before any tool or CLI dispatch runs; prepending an
unrecognized extra environment variable leaves construction unchanged. -/
theorem C5_configuration_fail_fast :
    (∀ (env : Env) (argv : List String) (f : String),
        f ∈ required_r2_fields → env_lookup env f = none →
        ∃ missing, construct_settings env = Except.error missing ∧ f ∈ missing ∧
          main_py_startup env argv = Except.error missing)
  ∧ (∀ (env : Env) (k v : String), k ∉ required_r2_fields →
        construct_settings ((k, v) :: env) = construct_settings env) := by
  constructor
  · intro env argv f hf hnone
    have herr : construct_settings env
        = Except.error (required_r2_fields.filter (fun g => env_lookup env g = none)) := by
      cases h1 : env_lookup env "R2_BUCKET" <;>
      cases h2 : env_lookup env "R2_ENDPOINT_URL" <;>
      cases h3 : env_lookup env "R2_PUBLIC_BUCKET_URL" <;>
      cases h4 : env_lookup env "AWS_ACCESS_KEY_ID" <;>
      cases h5 : env_lookup env "AWS_SECRET_ACCESS_KEY" <;>
        solve
        | (exfalso; fin_cases hf <;> simp_all)
        | simp [construct_settings, h1, h2, h3, h4, h5]
    refine ⟨_, herr, ?_, ?_⟩
    · simp [List.mem_filter, hf, hnone]
    · simp [main_py_startup, herr, Except.map]
  · intro env k v hk
    have hne : ∀ f ∈ required_r2_fields, f ≠ k := by
      intro f hf hfk
      exact hk (hfk ▸ hf)
    have e1 := env_lookup_cons_ne env k v "R2_BUCKET" (hne _ (by decide))
    have e2 := env_lookup_cons_ne env k v "R2_ENDPOINT_URL" (hne _ (by decide))
    have e3 := env_lookup_cons_ne env k v "R2_PUBLIC_BUCKET_URL" (hne _ (by decide))
    have e4 := env_lookup_cons_ne env k v "AWS_ACCESS_KEY_ID" (hne _ (by decide))
    have e5 := env_lookup_cons_ne env k v "AWS_SECRET_ACCESS_KEY" (hne _ (by decide))
    have efil : required_r2_fields.filter (fun g => env_lookup ((k, v) :: env) g = none)
        = required_r2_fields.filter (fun g => env_lookup env g = none) :=
      List.filter_congr (fun g hg => by rw [env_lookup_cons_ne env k v g (hne g hg)])
    simp only [construct_settings, e1, e2, e3, e4, e5, efil]

/-- Witness for claim C5: an environment with `R2_BUCKET` unset fails with
an error naming `R2_BUCKET` before dispatch, and an unrecognized variable
does not affect construction over a complete environment. -/
theorem C5_configuration_fail_fast_witness :
    (∃ missing,
        construct_settings
            [("R2_ENDPOINT_URL", "https://e.example.com"),
             ("R2_PUBLIC_BUCKET_URL", "https://cdn.example.com"),
             ("AWS_ACCESS_KEY_ID", "id"), ("AWS_SECRET_ACCESS_KEY", "secret")]
          = Except.error missing ∧ "R2_BUCKET" ∈ missing ∧
          main_py_startup
              [("R2_ENDPOINT_URL", "https://e.example.com"),
               ("R2_PUBLIC_BUCKET_URL", "https://cdn.example.com"),
               ("AWS_ACCESS_KEY_ID", "id"), ("AWS_SECRET_ACCESS_KEY", "secret")]
              ["main.py"]
            = Except.error missing)
  ∧ construct_settings
        (("SOME_UNRECOGNIZED_VAR", "x") ::
          [("R2_BUCKET", "maps"), ("R2_ENDPOINT_URL", "https://e.example.com"),
           ("R2_PUBLIC_BUCKET_URL", "https://cdn.example.com"),
           ("AWS_ACCESS_KEY_ID", "id"), ("AWS_SECRET_ACCESS_KEY", "secret")])
      = construct_settings
          [("R2_BUCKET", "maps"), ("R2_ENDPOINT_URL", "https://e.example.com"),
           ("R2_PUBLIC_BUCKET_URL", "https://cdn.example.com"),
           ("AWS_ACCESS_KEY_ID", "id"), ("AWS_SECRET_ACCESS_KEY", "secret")] :=
  ⟨C5_configuration_fail_fast.1
      [("R2_ENDPOINT_URL", "https://e.example.com"),
       ("R2_PUBLIC_BUCKET_URL", "https://cdn.example.com"),
       ("AWS_ACCESS_KEY_ID", "id"), ("AWS_SECRET_ACCESS_KEY", "secret")]
      ["main.py"] "R2_BUCKET" (by decide) (by decide),
   C5_configuration_fail_fast.2
      [("R2_BUCKET", "maps"), ("R2_ENDPOINT_URL", "https://e.example.com"),
       ("R2_PUBLIC_BUCKET_URL", "https://cdn.example.com"),
       ("AWS_ACCESS_KEY_ID", "id"), ("AWS_SECRET_ACCESS_KEY", "secret")]
      "SOME_UNRECOGNIZED_VAR" "x" (by decide)⟩

/-- Counterexample to claim C6 as stated: the CLI accepts
`--edge-color ""`, an explicitly supplied value, yet the empty string is
falsy, so `if not args.edge_color` replaces it with the per-network
default instead of using it unchanged. -/
theorem C6_empty_edge_color_counterexample :
    resolve_edge_color (some "") NetworkType.walk = "#2ecc71"
  ∧ resolve_edge_color (some "") NetworkType.walk ≠ "" := by decide

/-- Claim C6 (amended): with no `--edge-color` the resolved color is
drive `#ffffff`, bike `#3498db`, walk `#2ecc71`, all `#ffffff`; every
explicitly supplied non-empty edge color is used unchanged regardless of
network type (a supplied empty string is treated as absent). -/
theorem C6_edge_color_derivation :
    (∀ nt : NetworkType, resolve_edge_color none nt = edge_color_table nt)
  ∧ resolve_edge_color none NetworkType.drive = "#ffffff"
  ∧ resolve_edge_color none NetworkType.bike = "#3498db"
  ∧ resolve_edge_color none NetworkType.walk = "#2ecc71"
  ∧ resolve_edge_color none NetworkType.all = "#ffffff"
  ∧ (∀ (c : String) (nt : NetworkType), c ≠ "" →
        resolve_edge_color (some c) nt = c) := by
  refine ⟨fun nt => rfl, by decide, by decide, by decide, by decide,
    fun c nt hc => ?_⟩
  simp [resolve_edge_color, hc]

/-- Witness for claim C6: a non-empty supplied color survives even for the
walk network type. -/
theorem C6_edge_color_derivation_witness :
    resolve_edge_color (some "#123abc") NetworkType.walk = "#123abc" :=
  C6_edge_color_derivation.2.2.2.2.2 "#123abc" NetworkType.walk (by decide)

/-- Claim C7: with no `--output`, the CLI derives the save path
`img/{network_type}_street_map_{timestamp}.png` with the timestamp
formatted `YYYYMMDD_HHMMSS`, creating the `img` directory; for in-range
time components the timestamp is eight digits, an underscore, and six
digits. -/
theorem C7_default_output_path :
    (∀ (nt : NetworkType) (now : LocalTime),
        resolve_output none nt now
          = ("img/" ++ nt.py_str ++ "_street_map_" ++ strftime_key now ++ ".png",
             true))
  ∧ resolve_output none NetworkType.walk ⟨2026, 10, 12, 15, 4, 5⟩
      = ("img/walk_street_map_20261012_150405.png", true)
  ∧ (∀ t : LocalTime, t.year < 10000 → t.month < 100 → t.day < 100 →
        t.hour < 100 → t.minute < 100 → t.second < 100 →
        ∃ d8 d6 : String,
          strftime_key t = d8 ++ "_" ++ d6 ∧ d8.length = 8 ∧ d6.length = 6 ∧
            d8.data.all Char.isDigit = true ∧ d6.data.all Char.isDigit = true) := by
  refine ⟨fun nt now => rfl, by decide, ?_⟩
  intro t hy hmo hd hh hmi hs
  obtain ⟨ly, dy⟩ := pad4_shape t.year hy
  obtain ⟨lmo, dmo⟩ := pad2_shape t.month hmo
  obtain ⟨ld, dd⟩ := pad2_shape t.day hd
  obtain ⟨lh, dh⟩ := pad2_shape t.hour hh
  obtain ⟨lmi, dmi⟩ := pad2_shape t.minute hmi
  obtain ⟨ls, ds⟩ := pad2_shape t.second hs
  refine ⟨pad4 t.year ++ pad2 t.month ++ pad2 t.day,
    pad2 t.hour ++ pad2 t.minute ++ pad2 t.second, ?_, ?_, ?_, ?_, ?_⟩
  · simp [strftime_key, String.append_assoc]
  · simp [String.length_append, ly, lmo, ld]
  · simp [String.length_append, lh, lmi, ls]
  · simp [String.data_append, List.all_append, dy, dmo, dd]
  · simp [String.data_append, List.all_append, dh, dmi, ds]

/-- Witness for claim C7: the timestamp-shape clause at the concrete time
2026-10-12 15:04:05. -/
theorem C7_default_output_path_witness :
    ∃ d8 d6 : String,
      strftime_key ⟨2026, 10, 12, 15, 4, 5⟩ = d8 ++ "_" ++ d6 ∧ d8.length = 8 ∧
        d6.length = 6 ∧ d8.data.all Char.isDigit = true ∧
        d6.data.all Char.isDigit = true :=
  C7_default_output_path.2.2 ⟨2026, 10, 12, 15, 4, 5⟩ (by decide) (by decide)
    (by decide) (by decide) (by decide) (by decide)

/-- Claim C8: `from_address` either fails with the type-assertion error —
exactly when the acquisition service returns something that is not a
directed multi-edge graph — or returns the projection of the acquired
graph; on a multi-edge graph the assertion branch is unreachable and the
result is `project_graph` of the acquired graph. -/
theorem C8_from_address_projection :
    (∀ (g : Type) (project_graph : g → g) (acquired : AcqResult g),
        (acquired = AcqResult.other ∧
          from_address project_graph acquired = Except.error "AssertionError")
      ∨ (∃ G, acquired = AcqResult.multiDiGraph G ∧
          from_address project_graph acquired = Except.ok (project_graph G)))
  ∧ (∀ (g : Type) (project_graph : g → g) (G : g),
        from_address project_graph (AcqResult.multiDiGraph G)
          = Except.ok (project_graph G))
  ∧ (∀ (g : Type) (project_graph : g → g),
        from_address project_graph (AcqResult.other : AcqResult g)
          = Except.error "AssertionError") := by
  refine ⟨fun g pg acquired => ?_, fun g pg G => rfl, fun g pg => rfl⟩
  cases acquired with
  | multiDiGraph G => exact Or.inr ⟨G, rfl, rfl⟩
  | other => exact Or.inl ⟨rfl, rfl⟩

/-- Counterexample to claim C9 as stated: the string `""` supplied as
`save_path` is falsy, so the figure is displayed rather than written and
closed. -/
theorem C9_empty_save_path_counterexample :
    finish_figure (some "") 300 = [FigAction.show]
  ∧ writes_file (finish_figure (some "") 300) = false := by decide

/-- Claim C9 (amended): whenever a non-empty save path is supplied the
figure is written to that path with tight bounding-box cropping at the
given DPI and then closed; when no save path is supplied (or the supplied
string is empty) the figure is displayed and left open. -/
theorem C9_save_or_show :
    (∀ (p : String) (dpi : Int), p ≠ "" →
        finish_figure (some p) dpi
          = [FigAction.mkdir_parent p, FigAction.savefig p dpi true,
             FigAction.close])
  ∧ (∀ dpi : Int, finish_figure none dpi = [FigAction.show])
  ∧ (∀ dpi : Int, finish_figure (some "") dpi = [FigAction.show]) := by
  refine ⟨fun p dpi hp => ?_, fun dpi => rfl, fun dpi => rfl⟩
  simp [finish_figure, hp]

/-- Witness for claim C9: a concrete non-empty path is written with tight
cropping at DPI 300 and the figure is closed. -/
theorem C9_save_or_show_witness :
    finish_figure (some "img/map.png") 300
      = [FigAction.mkdir_parent "img/map.png",
         FigAction.savefig "img/map.png" 300 true, FigAction.close] :=
  C9_save_or_show.1 "img/map.png" 300 (by decide)

end Maps
